import Mathlib

/-!
Shallow embedding of the terraform-provider-devgraph resource lifecycle code
(package `internal/provider`).  Each Go resource file is translated into:

* a plan/state model record mirroring the `*ResourceModel` struct, with
  the Terraform tri-state (known value / null / unknown) attribute semantics;
* response records mirroring the generated API response types that the
  lifecycle methods consume;
* pure Lean functions for the lifecycle methods.  A remote HTTP call is
  modelled by passing the would-be result of the call as an explicit
  argument; `remoteCalled` in the outcome records whether the code reaches
  the call site.  Library helpers external to this repository
  (`uuid.Parse`, `url.Parse`, `json.Unmarshal`) are passed as function
  parameters, since their implementation is not part of this repository.

Elided from the embedding, because no statement below depends on them:
schema `Description` strings, static defaults applied at plan time by the
framework, and the `context.Context` plumbing.
-/

set_option autoImplicit false

namespace Devgraph

/-- Terraform `types.String`: a known value, a known null, or an unknown
plan-time placeholder. -/
inductive TFString where
  | value : String → TFString
  | null : TFString
  | unknown : TFString
deriving DecidableEq, Repr

/-- `types.String.IsNull`. -/
def TFString.isNull : TFString → Bool
  | .null => true
  | _ => false

/-- `types.String.IsUnknown`. -/
def TFString.isUnknown : TFString → Bool
  | .unknown => true
  | _ => false

/-- `types.String.ValueString`: the known value, or `""` for null/unknown. -/
def TFString.valueString : TFString → String
  | .value s => s
  | _ => ""

/-- Terraform `types.Bool`. -/
inductive TFBool where
  | value : Bool → TFBool
  | null : TFBool
  | unknown : TFBool
deriving DecidableEq, Repr

/-- `types.Bool.IsNull`. -/
def TFBool.isNull : TFBool → Bool
  | .null => true
  | _ => false

/-- `types.Bool.ValueBool`: the known value, or `false` for null/unknown. -/
def TFBool.valueBool : TFBool → Bool
  | .value b => b
  | _ => false

/-- Terraform `types.Int64`. -/
inductive TFInt64 where
  | value : Int → TFInt64
  | null : TFInt64
  | unknown : TFInt64
deriving DecidableEq, Repr

/-- `types.Int64.IsNull`. -/
def TFInt64.isNull : TFInt64 → Bool
  | .null => true
  | _ => false

/-- `types.Int64.ValueInt64`: the known value, or `0` for null/unknown. -/
def TFInt64.valueInt64 : TFInt64 → Int
  | .value i => i
  | _ => 0

/-- Terraform `types.List` of strings. -/
inductive TFList where
  | value : List String → TFList
  | null : TFList
  | unknown : TFList
deriving DecidableEq, Repr

/-- `types.List.IsNull`. -/
def TFList.isNull : TFList → Bool
  | .null => true
  | _ => false

/-- `types.List.IsUnknown`. -/
def TFList.isUnknown : TFList → Bool
  | .unknown => true
  | _ => false

/-- `ElementsAs` into `[]string`: the known elements, or `[]`. -/
def TFList.elements : TFList → List String
  | .value l => l
  | _ => []

/-- Terraform `types.Map` with string elements, as an association list. -/
inductive TFMap where
  | value : List (String × String) → TFMap
  | null : TFMap
  | unknown : TFMap
deriving DecidableEq, Repr

/-- `types.Map.IsNull`. -/
def TFMap.isNull : TFMap → Bool
  | .null => true
  | _ => false

/-- `ElementsAs` into `map[string]string`: the known entries, or `[]`. -/
def TFMap.entries : TFMap → List (String × String)
  | .value l => l
  | _ => []

/-- The `OptT` wrapper of the generated client (`Set` flag plus value). -/
inductive Opt (α : Type) where
  | unset : Opt α
  | set : α → Opt α
deriving DecidableEq, Repr

/-- `Opt.IsSet`. -/
def Opt.isSet {α : Type} : Opt α → Bool
  | .unset => false
  | .set _ => true

/-- `Opt.Value`: the carried value, or the Go zero value when unset. -/
def Opt.value {α : Type} [Inhabited α] : Opt α → α
  | .unset => default
  | .set a => a

/-- The `OptNilT` wrapper of the generated client (`Set` and `Null` flags plus
value).  `v1.NewOptNilT v` yields `val v`; the Go zero value is `unset`. -/
inductive OptNil (α : Type) where
  | unset : OptNil α
  | null : OptNil α
  | val : α → OptNil α
deriving DecidableEq, Repr

/-- The `Null` flag of an `OptNilT`. -/
def OptNil.isNull {α : Type} : OptNil α → Bool
  | .null => true
  | _ => false

/-- The `Value` field of an `OptNilT`: the carried value, or the Go zero
value when unset or null. -/
def OptNil.value {α : Type} [Inhabited α] : OptNil α → α
  | .val a => a
  | _ => default

/-- One entry of a `diag.Diagnostics` collection, as added by
`Diagnostics.AddError(summary, detail)`. -/
structure Diag where
  summary : String
  detail : String
deriving DecidableEq, Repr

/-- Result of a remote create/update call: transport error, a response of
an unexpected dynamic type (failed type assertion), or the expected
response value. -/
inductive ClientResult (α : Type) where
  | err : String → ClientResult α
  | wrongType : ClientResult α
  | ok : α → ClientResult α
deriving DecidableEq, Repr

/-- Result of a remote get call: transport error, a typed not-found
response, an unexpected dynamic type, or the expected response value. -/
inductive GetResult (α : Type) where
  | err : String → GetResult α
  | notFound : GetResult α
  | wrongType : GetResult α
  | ok : α → GetResult α
deriving DecidableEq, Repr

/-- Outcome of a Create/Update/Delete lifecycle method: the diagnostics
added, whether the remote call site was reached, and the model written by
`resp.State.Set` (`none` when no write happens). -/
structure OpOutcome (μ : Type) where
  diags : List Diag
  remoteCalled : Bool
  state : Option μ
deriving DecidableEq, Repr

/-- Outcome of a Read lifecycle method: the diagnostics added, whether
`resp.State.RemoveResource` was called, and the model written by
`resp.State.Set` (`none` when no write happens). -/
structure ReadOutcome (μ : Type) where
  diags : List Diag
  removed : Bool
  state : Option μ
deriving DecidableEq, Repr

/-- A plan-time modifier attached to a schema attribute. -/
inductive PlanModifier where
  | useStateForUnknown : PlanModifier
  | requiresReplace : PlanModifier
deriving DecidableEq, Repr

/-- The declared shape of one schema attribute (descriptions, static
defaults and value validators elided). -/
structure AttributeSchema where
  required : Bool := false
  optional : Bool := false
  computed : Bool := false
  sensitive : Bool := false
  planModifiers : List PlanModifier := []
deriving DecidableEq, Repr

/-! ## `devgraph_model_provider` (`model_provider_resource.go`) -/

/-- `ModelProviderResourceModel`. -/
structure ModelProviderResourceModel where
  id : TFString
  type : TFString
  name : TFString
  apiKey : TFString
  default : TFBool
deriving DecidableEq, Repr

/-- `ModelProviderResource.Schema` attribute map. -/
def ModelProviderResource.schemaAttributes : List (String × AttributeSchema) :=
  [("id", { computed := true, planModifiers := [.useStateForUnknown] }),
   ("type", { required := true }),
   ("name", { required := true }),
   ("api_key", { required := true, sensitive := true }),
   ("default", { optional := true, computed := true })]

/-- The payload shared by the three `…ModelProviderResponse` variant
structs (`ID`, `Type`, `Name`, `APIKey`, `Default`). -/
structure ModelProviderVariant where
  id : String
  type : String
  name : String
  apiKey : String
  default : Opt Bool
deriving DecidableEq, Repr

/-- Discriminator constant `v1.OpenAIModelProviderResponseModelProviderResponse`. -/
def openAIResponseTag : String := "OpenAIModelProviderResponse"

/-- Discriminator constant `v1.AnthropicModelProviderResponseModelProviderResponse`. -/
def anthropicResponseTag : String := "AnthropicModelProviderResponse"

/-- Discriminator constant `v1.XAIModelProviderResponseModelProviderResponse`. -/
def xaiResponseTag : String := "XAIModelProviderResponse"

/-- `v1.ModelProviderResponse`: a discriminator tag plus the three variant
payloads; the switch on `result.Type` selects which payload is read. -/
structure ModelProviderResponse where
  type : String
  openAI : ModelProviderVariant
  anthropic : ModelProviderVariant
  xai : ModelProviderVariant
deriving DecidableEq, Repr

/-- One variant arm of the response-merge switch in
`ModelProviderResource.Create/Read/Update`: copy `ID` (Create/Update
only), `Type`, `Name`, `APIKey` and, when set, `Default` into the model. -/
def ModelProviderResource.applyVariant (setID : Bool)
    (m : ModelProviderResourceModel) (p : ModelProviderVariant) :
    ModelProviderResourceModel :=
  { m with
    id := if setID then .value p.id else m.id
    type := .value p.type
    name := .value p.name
    apiKey := .value p.apiKey
    default := if p.default.isSet then .value p.default.value else m.default }

/-- The `switch result.Type` response merge of
`ModelProviderResource.Create/Read/Update`.  The switch has no default
case: an unrecognized tag leaves the model unchanged. -/
def ModelProviderResource.applyResponse (setID : Bool)
    (m : ModelProviderResourceModel) (r : ModelProviderResponse) :
    ModelProviderResourceModel :=
  if r.type = openAIResponseTag then ModelProviderResource.applyVariant setID m r.openAI
  else if r.type = anthropicResponseTag then ModelProviderResource.applyVariant setID m r.anthropic
  else if r.type = xaiResponseTag then ModelProviderResource.applyVariant setID m r.xai
  else m

/-- `ModelProviderResource.Create`: switch on the `type` of the plan to build
the request (invalid type errors before the call), invoke the remote
create, type-assert the response, merge it, and set state. -/
def ModelProviderResource.create (plan : ModelProviderResourceModel)
    (call : ClientResult ModelProviderResponse) :
    OpOutcome ModelProviderResourceModel :=
  let t := plan.type.valueString
  if t = "openai" ∨ t = "anthropic" ∨ t = "xai" then
    match call with
    | .err e =>
        ⟨[⟨"Error creating model provider", "Could not create model provider: " ++ e⟩],
         true, none⟩
    | .wrongType =>
        ⟨[⟨"Unexpected response type", "Expected ModelProviderResponse"⟩], true, none⟩
    | .ok result =>
        ⟨[], true, some (ModelProviderResource.applyResponse true plan result)⟩
  else
    ⟨[⟨"Invalid provider type",
       "Provider type must be one of: openai, anthropic, xai. Got: " ++ t⟩],
     false, none⟩

/-- `ModelProviderResource.Read`: parse the stored ID as a UUID, fetch by
ID, remove from state on not-found, type-assert, merge (without touching
`ID`), and set state.  `parseUUID` stands for `uuid.Parse`. -/
def ModelProviderResource.read (parseUUID : String → Except String String)
    (state : ModelProviderResourceModel)
    (call : GetResult ModelProviderResponse) :
    ReadOutcome ModelProviderResourceModel :=
  match parseUUID state.id.valueString with
  | .error e => ⟨[⟨"Invalid Model Provider ID", e⟩], false, none⟩
  | .ok _ =>
    match call with
    | .err e =>
        ⟨[⟨"Error reading model provider",
           "Could not read model provider ID " ++ state.id.valueString ++ ": " ++ e⟩],
         false, none⟩
    | .notFound => ⟨[], true, none⟩
    | .wrongType =>
        ⟨[⟨"Unexpected response type", "Expected *v1.ModelProviderResponse"⟩],
         false, none⟩
    | .ok result =>
        ⟨[], false, some (ModelProviderResource.applyResponse false state result)⟩

/-- `v1.ModelProviderUpdate`: all fields optional-nilable, zero value
means the field is absent from the payload. -/
structure ModelProviderUpdate where
  name : OptNil String := .unset
  apiKey : OptNil String := .unset
  default : OptNil Bool := .unset
deriving DecidableEq, Repr

/-- The request builder inside `ModelProviderResource.Update`: each field
is included, via `v1.NewOptNil…`, only when its plan value differs
(`types` tri-state equality) from its prior-state value. -/
def ModelProviderResource.updateRequest
    (plan state : ModelProviderResourceModel) : ModelProviderUpdate :=
  { name := if plan.name = state.name then .unset else .val plan.name.valueString
    apiKey := if plan.apiKey = state.apiKey then .unset else .val plan.apiKey.valueString
    default := if plan.default = state.default then .unset else .val plan.default.valueBool }

/-- `ModelProviderResource.Update`: parse the ID of the prior state, build the
diffed request, invoke the remote update, type-assert, merge into the
plan, and set state. -/
def ModelProviderResource.update (parseUUID : String → Except String String)
    (plan state : ModelProviderResourceModel)
    (call : ClientResult ModelProviderResponse) :
    OpOutcome ModelProviderResourceModel :=
  match parseUUID state.id.valueString with
  | .error e => ⟨[⟨"Invalid Model Provider ID", e⟩], false, none⟩
  | .ok _ =>
    match call with
    | .err e =>
        ⟨[⟨"Error updating model provider", "Could not update model provider: " ++ e⟩],
         true, none⟩
    | .wrongType =>
        ⟨[⟨"Unexpected response type", "Expected ModelProviderResponse"⟩], true, none⟩
    | .ok result =>
        ⟨[], true, some (ModelProviderResource.applyResponse true plan result)⟩

/-! ## `devgraph_oauth_service` (`model_provider_resource.go`, second file) -/

/-- `OAuthServiceResourceModel`. -/
structure OAuthServiceResourceModel where
  id : TFString
  name : TFString
  displayName : TFString
  description : TFString
  clientID : TFString
  clientSecret : TFString
  authorizationURL : TFString
  tokenURL : TFString
  userinfoURL : TFString
  defaultScopes : TFList
  supportedGrantTypes : TFList
  isActive : TFBool
  iconURL : TFString
  homepageURL : TFString
  createdAt : TFString
  updatedAt : TFString
deriving DecidableEq, Repr

/-- `OAuthServiceResource.Schema` attribute map. -/
def OAuthServiceResource.schemaAttributes : List (String × AttributeSchema) :=
  [("id", { computed := true, planModifiers := [.useStateForUnknown] }),
   ("name", { required := true, planModifiers := [.requiresReplace] }),
   ("display_name", { required := true }),
   ("description", { optional := true }),
   ("client_id", { required := true }),
   ("client_secret", { required := true, sensitive := true }),
   ("authorization_url", { required := true }),
   ("token_url", { required := true }),
   ("userinfo_url", { optional := true }),
   ("default_scopes", { optional := true, computed := true }),
   ("supported_grant_types", { optional := true, computed := true }),
   ("is_active", { optional := true, computed := true }),
   ("icon_url", { optional := true }),
   ("homepage_url", { optional := true }),
   ("created_at", { computed := true, planModifiers := [.useStateForUnknown] }),
   ("updated_at", { computed := true })]

/-- `v1.OAuthServiceResponse`. -/
structure OAuthServiceResponse where
  id : String
  displayName : String
  authorizationURL : String
  tokenURL : String
  isActive : Bool
  createdAt : String
  updatedAt : String
  description : OptNil String
  userinfoURL : OptNil String
  iconURL : OptNil String
  homepageURL : OptNil String
  defaultScopes : List String
  supportedGrantTypes : List String
deriving DecidableEq, Repr

/-- The response merge in `OAuthServiceResource.Create`: overwrite every
reflected field from the response, but keep `plan.Name`, `plan.ClientID`
and `plan.ClientSecret` (the code never assigns them from the result). -/
def OAuthServiceResource.createMerge (plan : OAuthServiceResourceModel)
    (result : OAuthServiceResponse) : OAuthServiceResourceModel :=
  { plan with
    id := .value result.id
    displayName := .value result.displayName
    authorizationURL := .value result.authorizationURL
    tokenURL := .value result.tokenURL
    isActive := .value result.isActive
    createdAt := .value result.createdAt
    updatedAt := .value result.updatedAt
    description := if !result.description.isNull then .value result.description.value else .null
    userinfoURL := if !result.userinfoURL.isNull then .value result.userinfoURL.value else .null
    iconURL := if !result.iconURL.isNull then .value result.iconURL.value else .null
    homepageURL := if !result.homepageURL.isNull then .value result.homepageURL.value else .null
    defaultScopes := .value result.defaultScopes
    supportedGrantTypes := .value result.supportedGrantTypes }

/-- The response merge in `OAuthServiceResource.Read`: like the Create
merge but `ID` is also left untouched. -/
def OAuthServiceResource.readMerge (state : OAuthServiceResourceModel)
    (result : OAuthServiceResponse) : OAuthServiceResourceModel :=
  { state with
    displayName := .value result.displayName
    authorizationURL := .value result.authorizationURL
    tokenURL := .value result.tokenURL
    isActive := .value result.isActive
    createdAt := .value result.createdAt
    updatedAt := .value result.updatedAt
    description := if !result.description.isNull then .value result.description.value else .null
    userinfoURL := if !result.userinfoURL.isNull then .value result.userinfoURL.value else .null
    iconURL := if !result.iconURL.isNull then .value result.iconURL.value else .null
    homepageURL := if !result.homepageURL.isNull then .value result.homepageURL.value else .null
    defaultScopes := .value result.defaultScopes
    supportedGrantTypes := .value result.supportedGrantTypes }

/-- The response merge in `OAuthServiceResource.Update`: like the Read
merge but `CreatedAt` is also left untouched. -/
def OAuthServiceResource.updateMerge (plan : OAuthServiceResourceModel)
    (result : OAuthServiceResponse) : OAuthServiceResourceModel :=
  { plan with
    displayName := .value result.displayName
    authorizationURL := .value result.authorizationURL
    tokenURL := .value result.tokenURL
    isActive := .value result.isActive
    updatedAt := .value result.updatedAt
    description := if !result.description.isNull then .value result.description.value else .null
    userinfoURL := if !result.userinfoURL.isNull then .value result.userinfoURL.value else .null
    iconURL := if !result.iconURL.isNull then .value result.iconURL.value else .null
    homepageURL := if !result.homepageURL.isNull then .value result.homepageURL.value else .null
    defaultScopes := .value result.defaultScopes
    supportedGrantTypes := .value result.supportedGrantTypes }

/-- `OAuthServiceResource.Read` control flow around the merge. -/
def OAuthServiceResource.read (parseUUID : String → Except String String)
    (state : OAuthServiceResourceModel)
    (call : GetResult OAuthServiceResponse) :
    ReadOutcome OAuthServiceResourceModel :=
  match parseUUID state.id.valueString with
  | .error e => ⟨[⟨"Invalid OAuth Service ID", e⟩], false, none⟩
  | .ok _ =>
    match call with
    | .err e =>
        ⟨[⟨"Error reading OAuth service",
           "Could not read OAuth service ID " ++ state.id.valueString ++ ": " ++ e⟩],
         false, none⟩
    | .notFound => ⟨[], true, none⟩
    | .wrongType =>
        ⟨[⟨"Unexpected response type", "Expected *v1.OAuthServiceResponse"⟩],
         false, none⟩
    | .ok result => ⟨[], false, some (OAuthServiceResource.readMerge state result)⟩

/-- `v1.OAuthServiceUpdate`: all fields optional-nilable, zero value means
the field is absent from the payload. -/
structure OAuthServiceUpdate where
  displayName : OptNil String := .unset
  clientID : OptNil String := .unset
  clientSecret : OptNil String := .unset
  authorizationURL : OptNil String := .unset
  tokenURL : OptNil String := .unset
  description : OptNil String := .unset
  defaultScopes : OptNil (List String) := .unset
  supportedGrantTypes : OptNil (List String) := .unset
  userinfoURL : OptNil String := .unset
  isActive : OptNil Bool := .unset
  iconURL : OptNil String := .unset
  homepageURL : OptNil String := .unset
deriving DecidableEq, Repr

/-- One URL-typed field of the OAuth update request: skipped when the plan
value is null, otherwise parsed with `url.Parse`, erroring with the
field-specific summary on failure. -/
def OAuthServiceResource.urlField (parseURL : String → Except String String)
    (summary : String) (f : TFString) : Except Diag (OptNil String) :=
  if f.isNull then .ok .unset
  else
    match parseURL f.valueString with
    | .error e => .error ⟨summary, e⟩
    | .ok u => .ok (.val u)

/-- The request builder inside `OAuthServiceResource.Update`: it reads
only the plan (the prior state is never fetched) and includes every field
whose plan value is non-null; list fields are included when neither null
nor unknown.  URL parse failures abort with the diagnostic of the failing field; the
URL fields fail in their source order. -/
def OAuthServiceResource.updateRequest (parseURL : String → Except String String)
    (plan : OAuthServiceResourceModel) : Except Diag OAuthServiceUpdate :=
  match OAuthServiceResource.urlField parseURL "Invalid authorization URL" plan.authorizationURL with
  | .error d => .error d
  | .ok authorizationURL =>
  match OAuthServiceResource.urlField parseURL "Invalid token URL" plan.tokenURL with
  | .error d => .error d
  | .ok tokenURL =>
  match OAuthServiceResource.urlField parseURL "Invalid userinfo URL" plan.userinfoURL with
  | .error d => .error d
  | .ok userinfoURL =>
  match OAuthServiceResource.urlField parseURL "Invalid icon URL" plan.iconURL with
  | .error d => .error d
  | .ok iconURL =>
  match OAuthServiceResource.urlField parseURL "Invalid homepage URL" plan.homepageURL with
  | .error d => .error d
  | .ok homepageURL =>
  .ok {
    displayName := if plan.displayName.isNull then .unset else .val plan.displayName.valueString
    clientID := if plan.clientID.isNull then .unset else .val plan.clientID.valueString
    clientSecret := if plan.clientSecret.isNull then .unset else .val plan.clientSecret.valueString
    authorizationURL := authorizationURL
    tokenURL := tokenURL
    description := if plan.description.isNull then .unset else .val plan.description.valueString
    defaultScopes :=
      if !plan.defaultScopes.isNull && !plan.defaultScopes.isUnknown then
        .val plan.defaultScopes.elements
      else .unset
    supportedGrantTypes :=
      if !plan.supportedGrantTypes.isNull && !plan.supportedGrantTypes.isUnknown then
        .val plan.supportedGrantTypes.elements
      else .unset
    userinfoURL := userinfoURL
    isActive := if plan.isActive.isNull then .unset else .val plan.isActive.valueBool
    iconURL := iconURL
    homepageURL := homepageURL }

/-! ## `devgraph_mcp_endpoint` (`mcp_endpoint_resource.go`) -/

/-- `MCPEndpointResourceModel`. -/
structure MCPEndpointResourceModel where
  id : TFString
  name : TFString
  url : TFString
  description : TFString
  headers : TFMap
  devgraphAuth : TFBool
  supportsResources : TFBool
  oauthServiceID : TFString
  immutable : TFBool
  active : TFBool
  allowedTools : TFList
  deniedTools : TFList
deriving DecidableEq, Repr

/-- `uuid.Nil` rendered as a string. -/
def uuidNil : String := "00000000-0000-0000-0000-000000000000"

/-- `v1.MCPEndpointResponse`. -/
structure MCPEndpointResponse where
  id : String
  name : String
  url : String
  description : Opt String
  headers : Opt (List (String × String))
  devgraphAuth : Opt Bool
  supportsResources : Opt Bool
  immutable : Opt Bool
  active : Opt Bool
  oauthServiceID : Opt String
deriving DecidableEq, Repr

/-- The response merge in `MCPEndpointResource.Create`: `ID`, `Name` and
`URL` always overwritten; each optional field overwritten only when the
response carries it (headers additionally only when non-empty, the OAuth
service ID additionally only when not the nil UUID). -/
def MCPEndpointResource.createMerge (plan : MCPEndpointResourceModel)
    (result : MCPEndpointResponse) : MCPEndpointResourceModel :=
  { plan with
    id := TFString.value result.id
    name := TFString.value result.name
    url := TFString.value result.url
    description :=
      if result.description.isSet then TFString.value result.description.value
      else plan.description
    headers :=
      if result.headers.isSet && result.headers.value.length > 0 then
        TFMap.value result.headers.value
      else plan.headers
    devgraphAuth :=
      if result.devgraphAuth.isSet then TFBool.value result.devgraphAuth.value
      else plan.devgraphAuth
    supportsResources :=
      if result.supportsResources.isSet then TFBool.value result.supportsResources.value
      else plan.supportsResources
    immutable :=
      if result.immutable.isSet then TFBool.value result.immutable.value
      else plan.immutable
    active :=
      if result.active.isSet then TFBool.value result.active.value
      else plan.active
    oauthServiceID :=
      if result.oauthServiceID.isSet && result.oauthServiceID.value ≠ uuidNil then
        TFString.value result.oauthServiceID.value
      else plan.oauthServiceID }

/-- The response merge in `MCPEndpointResource.Read`: like the Create
merge but `ID` is left untouched. -/
def MCPEndpointResource.readMerge (state : MCPEndpointResourceModel)
    (result : MCPEndpointResponse) : MCPEndpointResourceModel :=
  { state with
    name := TFString.value result.name
    url := TFString.value result.url
    description :=
      if result.description.isSet then TFString.value result.description.value
      else state.description
    headers :=
      if result.headers.isSet && result.headers.value.length > 0 then
        TFMap.value result.headers.value
      else state.headers
    devgraphAuth :=
      if result.devgraphAuth.isSet then TFBool.value result.devgraphAuth.value
      else state.devgraphAuth
    supportsResources :=
      if result.supportsResources.isSet then TFBool.value result.supportsResources.value
      else state.supportsResources
    immutable :=
      if result.immutable.isSet then TFBool.value result.immutable.value
      else state.immutable
    active :=
      if result.active.isSet then TFBool.value result.active.value
      else state.active
    oauthServiceID :=
      if result.oauthServiceID.isSet && result.oauthServiceID.value ≠ uuidNil then
        TFString.value result.oauthServiceID.value
      else state.oauthServiceID }

/-- The response merge in `MCPEndpointResource.Update`: only `Name`,
`URL` and (when set) `Description` are taken from the response. -/
def MCPEndpointResource.updateMerge (plan : MCPEndpointResourceModel)
    (result : MCPEndpointResponse) : MCPEndpointResourceModel :=
  { plan with
    name := TFString.value result.name
    url := TFString.value result.url
    description :=
      if result.description.isSet then TFString.value result.description.value
      else plan.description }

/-- `MCPEndpointResource.Read` control flow around the merge. -/
def MCPEndpointResource.read (parseUUID : String → Except String String)
    (state : MCPEndpointResourceModel)
    (call : GetResult MCPEndpointResponse) :
    ReadOutcome MCPEndpointResourceModel :=
  match parseUUID state.id.valueString with
  | .error e => ⟨[⟨"Invalid MCP Endpoint ID", e⟩], false, none⟩
  | .ok _ =>
    match call with
    | .err e =>
        ⟨[⟨"Error reading MCP endpoint",
           "Could not read MCP endpoint ID " ++ state.id.valueString ++ ": " ++ e⟩],
         false, none⟩
    | .notFound => ⟨[], true, none⟩
    | .wrongType =>
        ⟨[⟨"Unexpected response type", "Expected *v1.MCPEndpointResponse"⟩],
         false, none⟩
    | .ok result => ⟨[], false, some (MCPEndpointResource.readMerge state result)⟩

/-- `v1.MCPEndpointUpdate`: all fields optional-nilable, zero value means
the field is absent from the payload. -/
structure MCPEndpointUpdate where
  name : OptNil String := .unset
  url : OptNil String := .unset
  description : OptNil String := .unset
  headers : OptNil (List (String × String)) := .unset
  devgraphAuth : OptNil Bool := .unset
  supportsResources : OptNil Bool := .unset
  immutable : OptNil Bool := .unset
  active : OptNil Bool := .unset
  oauthServiceID : OptNil String := .unset
  allowedTools : OptNil (List String) := .unset
  deniedTools : OptNil (List String) := .unset
deriving DecidableEq, Repr

/-- The request builder inside `MCPEndpointResource.Update`: it reads only
the plan (the prior state is never fetched) and includes every field whose
plan value is non-null; the OAuth service ID is parsed as a UUID first,
aborting on failure. -/
def MCPEndpointResource.updateRequest (parseUUID : String → Except String String)
    (plan : MCPEndpointResourceModel) : Except Diag MCPEndpointUpdate :=
  match (if plan.oauthServiceID.isNull then .ok .unset
         else
           match parseUUID plan.oauthServiceID.valueString with
           | .error e => .error (⟨"Invalid OAuth Service ID", e⟩ : Diag)
           | .ok u => .ok (OptNil.val u) : Except Diag (OptNil String)) with
  | .error d => .error d
  | .ok oauthServiceID =>
  .ok {
    name := if plan.name.isNull then .unset else .val plan.name.valueString
    url := if plan.url.isNull then .unset else .val plan.url.valueString
    description := if plan.description.isNull then .unset else .val plan.description.valueString
    headers := if plan.headers.isNull then .unset else .val plan.headers.entries
    devgraphAuth := if plan.devgraphAuth.isNull then .unset else .val plan.devgraphAuth.valueBool
    supportsResources := if plan.supportsResources.isNull then .unset else .val plan.supportsResources.valueBool
    immutable := if plan.immutable.isNull then .unset else .val plan.immutable.valueBool
    active := if plan.active.isNull then .unset else .val plan.active.valueBool
    oauthServiceID := oauthServiceID
    allowedTools := if plan.allowedTools.isNull then .unset else .val plan.allowedTools.elements
    deniedTools := if plan.deniedTools.isNull then .unset else .val plan.deniedTools.elements }

/-! ## `devgraph_model` (`model_resource.go`) -/

/-- `ModelResourceModel`. -/
structure ModelResourceModel where
  id : TFString
  name : TFString
  description : TFString
  providerID : TFString
  default : TFBool
deriving DecidableEq, Repr

/-- `ModelResource.Schema` attribute map.  The `name` attribute has no
plan modifiers. -/
def ModelResource.schemaAttributes : List (String × AttributeSchema) :=
  [("id", { computed := true, planModifiers := [.useStateForUnknown] }),
   ("name", { required := true }),
   ("description", { optional := true }),
   ("provider_id", { required := true }),
   ("default", { optional := true, computed := true })]

/-- `v1.ModelResponse`. -/
structure ModelResponse where
  id : String
  name : String
  description : Opt String
  providerID : String
  default : Opt Bool
deriving DecidableEq, Repr

/-- The response merge shared verbatim by `ModelResource.Create`, `Read`
and `Update`: `ID`, `Name`, `ProviderID` always overwritten;
`Description` and `Default` only when set in the response. -/
def ModelResource.applyResponse (m : ModelResourceModel)
    (result : ModelResponse) : ModelResourceModel :=
  { m with
    id := TFString.value result.id
    name := TFString.value result.name
    providerID := TFString.value result.providerID
    description :=
      if result.description.isSet then TFString.value result.description.value
      else m.description
    default :=
      if result.default.isSet then TFBool.value result.default.value
      else m.default }

/-- `ModelResource.Read` control flow: the model is fetched by its stored
name (no UUID parse), not-found removes it from state. -/
def ModelResource.read (state : ModelResourceModel)
    (call : GetResult ModelResponse) : ReadOutcome ModelResourceModel :=
  match call with
  | .err e =>
      ⟨[⟨"Error reading model",
         "Could not read model " ++ state.name.valueString ++ ": " ++ e⟩],
       false, none⟩
  | .notFound => ⟨[], true, none⟩
  | .wrongType =>
      ⟨[⟨"Unexpected response type", "Expected *v1.ModelResponse"⟩], false, none⟩
  | .ok result => ⟨[], false, some (ModelResource.applyResponse state result)⟩

/-- `v1.ModelUpdate`: the payload type has only `Description`,
`ProviderID` and `Default`; there is no name field. -/
structure ModelUpdate where
  description : OptNil String := .unset
  providerID : OptNil String := .unset
  default : OptNil Bool := .unset
deriving DecidableEq, Repr

/-- `v1.UpdateModelParams`: the update endpoint is addressed by model
name. -/
structure UpdateModelParams where
  modelName : String
deriving DecidableEq, Repr

/-- The request builder plus addressing inside `ModelResource.Update`:
each payload field included only when the plan value differs from the
prior state (null description encodes as the empty string); the call is
addressed by `state.Name`. -/
def ModelResource.updateCall (parseUUID : String → Except String String)
    (plan state : ModelResourceModel) :
    Except Diag (ModelUpdate × UpdateModelParams) :=
  let description :=
    if plan.description = state.description then OptNil.unset
    else if plan.description.isNull then OptNil.val ""
    else OptNil.val plan.description.valueString
  match (if plan.providerID = state.providerID then .ok .unset
         else
           match parseUUID plan.providerID.valueString with
           | .error e => .error (⟨"Invalid Provider ID", e⟩ : Diag)
           | .ok u => .ok (OptNil.val u) : Except Diag (OptNil String)) with
  | .error d => .error d
  | .ok providerID =>
  let dflt :=
    if plan.default = state.default then OptNil.unset
    else OptNil.val plan.default.valueBool
  .ok ({ description := description, providerID := providerID, default := dflt },
       ⟨state.name.valueString⟩)

/-! ## `devgraph_environment` (unnamed source file, `EnvironmentResource`) -/

/-- `EnvironmentResourceModel`. -/
structure EnvironmentResourceModel where
  id : TFString
  name : TFString
  slug : TFString
  clerkOrganizationID : TFString
  customerID : TFString
  subscriptionID : TFString
  invitedUsers : TFList
  stripeSubscriptionID : TFString
  instanceURL : TFString
deriving DecidableEq, Repr

/-- `v1.EnvironmentResponse` (the fields the provider reads). -/
structure EnvironmentResponse where
  id : String
  name : String
  slug : String
  clerkOrganizationID : String
  customerID : String
  subscriptionID : String
deriving DecidableEq, Repr

/-- The response merge in `EnvironmentResource.Create`. -/
def EnvironmentResource.createMerge (plan : EnvironmentResourceModel)
    (result : EnvironmentResponse) : EnvironmentResourceModel :=
  { plan with
    id := .value result.id
    name := .value result.name
    slug := .value result.slug
    clerkOrganizationID := .value result.clerkOrganizationID
    customerID := .value result.customerID
    subscriptionID := .value result.subscriptionID }

/-- `EnvironmentResource.Read`: list all environments and linearly scan
for the stored ID; the first match refreshes state, no match removes the
resource from state. -/
def EnvironmentResource.read (state : EnvironmentResourceModel)
    (call : ClientResult (List EnvironmentResponse)) :
    ReadOutcome EnvironmentResourceModel :=
  match call with
  | .err e =>
      ⟨[⟨"Error reading environments", "Could not read environments: " ++ e⟩],
       false, none⟩
  | .wrongType =>
      ⟨[⟨"Unexpected response type", "Expected *v1.GetEnvironmentsOKApplicationJSON"⟩],
       false, none⟩
  | .ok environments =>
    match environments.find? (fun env => env.id == state.id.valueString) with
    | some env =>
        ⟨[], false, some { state with
          name := .value env.name
          slug := .value env.slug
          clerkOrganizationID := .value env.clerkOrganizationID
          customerID := .value env.customerID
          subscriptionID := .value env.subscriptionID }⟩
    | none => ⟨[], true, none⟩

/-- `EnvironmentResource.Update`: unconditionally adds one fixed error and
returns; the request contents are never read and no remote call is made. -/
def EnvironmentResource.update (_plan _state : EnvironmentResourceModel) :
    OpOutcome EnvironmentResourceModel :=
  ⟨[⟨"Update not supported",
     "Environments cannot be updated after creation. Please destroy and recreate the resource."⟩],
   false, none⟩

/-- `EnvironmentResource.Delete`: unconditionally adds one fixed error and
returns; the request contents are never read and no remote call is made. -/
def EnvironmentResource.delete (_state : EnvironmentResourceModel) :
    OpOutcome EnvironmentResourceModel :=
  ⟨[⟨"Delete not supported",
     "Environments cannot be deleted through the API. Please manage environment deletion through the Devgraph console."⟩],
   false, none⟩

/-! ## `devgraph_chat_suggestion` (unnamed source file, `ChatSuggestionResource`) -/

/-- `ChatSuggestionResourceModel`. -/
structure ChatSuggestionResourceModel where
  id : TFString
  title : TFString
  label : TFString
  action : TFString
  active : TFBool
deriving DecidableEq, Repr

/-- `v1.ChatSuggestionResponse`. -/
structure ChatSuggestionResponse where
  id : String
  title : String
  label : String
  action : String
  active : Opt Bool
deriving DecidableEq, Repr

/-- The response merge in `ChatSuggestionResource.Create`: `ID`, `Title`,
`Label`, `Action` always overwritten; `Active` only when set. -/
def ChatSuggestionResource.createMerge (plan : ChatSuggestionResourceModel)
    (result : ChatSuggestionResponse) : ChatSuggestionResourceModel :=
  { plan with
    id := TFString.value result.id
    title := TFString.value result.title
    label := TFString.value result.label
    action := TFString.value result.action
    active :=
      if result.active.isSet then TFBool.value result.active.value
      else plan.active }

/-- `ChatSuggestionResource.Read`: parse the stored ID as a UUID, list all
suggestions (no single-item endpoint), linearly scan for the ID; the first
match refreshes state, no match removes the resource from state. -/
def ChatSuggestionResource.read (parseUUID : String → Except String String)
    (state : ChatSuggestionResourceModel)
    (call : ClientResult (List ChatSuggestionResponse)) :
    ReadOutcome ChatSuggestionResourceModel :=
  match parseUUID state.id.valueString with
  | .error e =>
      ⟨[⟨"Invalid suggestion ID", "Could not parse suggestion ID as UUID: " ++ e⟩],
       false, none⟩
  | .ok suggestionID =>
    match call with
    | .err e =>
        ⟨[⟨"Error reading chat suggestions", "Could not read chat suggestions: " ++ e⟩],
         false, none⟩
    | .wrongType =>
        ⟨[⟨"Unexpected response type", "Expected *v1.ListChatSuggestionsOKApplicationJSON"⟩],
         false, none⟩
    | .ok suggestions =>
      match suggestions.find? (fun s => s.id == suggestionID) with
      | some s =>
          ⟨[], false,
           some { state with
             title := TFString.value s.title
             label := TFString.value s.label
             action := TFString.value s.action
             active :=
               if s.active.isSet then TFBool.value s.active.value
               else state.active }⟩
      | none => ⟨[], true, none⟩

/-- `ChatSuggestionResource.Update`: unconditionally adds one fixed error
and returns; the request contents are never read and no remote call is
made. -/
def ChatSuggestionResource.update (_plan _state : ChatSuggestionResourceModel) :
    OpOutcome ChatSuggestionResourceModel :=
  ⟨[⟨"Update not supported",
     "Chat suggestions cannot be updated. Please destroy and recreate the resource to make changes."⟩],
   false, none⟩

/-! ## `devgraph_discovery_provider` (`discovery_provider_resource.go`) -/

/-- `DiscoveryProviderResourceModel`. -/
structure DiscoveryProviderResourceModel where
  id : TFString
  name : TFString
  providerType : TFString
  enabled : TFBool
  interval : TFInt64
  config : TFString
deriving DecidableEq, Repr

/-- `DiscoveryProviderResource.Schema` attribute map. -/
def DiscoveryProviderResource.schemaAttributes : List (String × AttributeSchema) :=
  [("id", { computed := true, planModifiers := [.useStateForUnknown] }),
   ("name", { required := true }),
   ("provider_type", { required := true, planModifiers := [.requiresReplace] }),
   ("enabled", { optional := true, computed := true }),
   ("interval", { optional := true, computed := true }),
   ("config", { required := true, sensitive := true })]

/-- The parsed config: one raw JSON value per key, the result of
`json.Unmarshal` into `map[string]interface{}` followed by per-key
`json.Marshal` (which cannot fail on values produced by `Unmarshal`). -/
abbrev ConfigMap := List (String × String)

/-- `v1.ConfiguredProviderResponse` (the fields the provider reads). -/
structure ConfiguredProviderResponse where
  id : String
  name : String
  providerType : String
  enabled : Bool
  interval : Int
deriving DecidableEq, Repr

/-- Result of `CreateConfiguredProvider`: transport error, success, a
typed not-found response (unknown provider type), or an unexpected dynamic
type. -/
inductive DiscoveryCreateResult where
  | err : String → DiscoveryCreateResult
  | ok : ConfiguredProviderResponse → DiscoveryCreateResult
  | notFound : DiscoveryCreateResult
  | wrongType : DiscoveryCreateResult
deriving DecidableEq, Repr

/-- The response merge in `DiscoveryProviderResource.Create` and
`Update`: `ID`, `Name`, `ProviderType`, `Enabled`, `Interval` are
overwritten; `Config` is deliberately kept from the plan (the response is
masked). -/
def DiscoveryProviderResource.createMerge (plan : DiscoveryProviderResourceModel)
    (result : ConfiguredProviderResponse) : DiscoveryProviderResourceModel :=
  { plan with
    id := .value result.id
    name := .value result.name
    providerType := .value result.providerType
    enabled := .value result.enabled
    interval := .value result.interval }

/-- The response merge in `DiscoveryProviderResource.Read`: like the
Create merge but `ID` is left untouched; `Config` is kept from state. -/
def DiscoveryProviderResource.readMerge (state : DiscoveryProviderResourceModel)
    (result : ConfiguredProviderResponse) : DiscoveryProviderResourceModel :=
  { state with
    name := .value result.name
    providerType := .value result.providerType
    enabled := .value result.enabled
    interval := .value result.interval }

/-- `DiscoveryProviderResource.Create`: validate the config string as JSON
(`parseConfig` stands for `json.Unmarshal` into a string-keyed map),
erroring before the remote call on failure; then create remotely and merge
the response.  Quote characters inside the provider-type-not-found
diagnostic detail are elided. -/
def DiscoveryProviderResource.create (parseConfig : String → Except String ConfigMap)
    (plan : DiscoveryProviderResourceModel)
    (call : DiscoveryCreateResult) : OpOutcome DiscoveryProviderResourceModel :=
  match parseConfig plan.config.valueString with
  | .error e =>
      ⟨[⟨"Invalid Config JSON", "Could not parse config as JSON: " ++ e⟩], false, none⟩
  | .ok _ =>
    match call with
    | .err e =>
        ⟨[⟨"Error creating discovery provider",
           "Could not create discovery provider: " ++ e⟩], true, none⟩
    | .notFound =>
        ⟨[⟨"Provider type not found",
           "The provider type " ++ plan.providerType.valueString ++
             " was not found. Check that it is a valid provider type (github, gitlab, argo, vercel, docker, file, fossa)."⟩],
         true, none⟩
    | .wrongType =>
        ⟨[⟨"Unexpected response type", "Expected *v1.ConfiguredProviderResponse"⟩],
         true, none⟩
    | .ok result => ⟨[], true, some (DiscoveryProviderResource.createMerge plan result)⟩

/-- `DiscoveryProviderResource.Read` control flow around the merge. -/
def DiscoveryProviderResource.read (parseUUID : String → Except String String)
    (state : DiscoveryProviderResourceModel)
    (call : GetResult ConfiguredProviderResponse) :
    ReadOutcome DiscoveryProviderResourceModel :=
  match parseUUID state.id.valueString with
  | .error e =>
      ⟨[⟨"Invalid provider ID", "Could not parse provider ID as UUID: " ++ e⟩],
       false, none⟩
  | .ok _ =>
    match call with
    | .err e =>
        ⟨[⟨"Error reading discovery provider",
           "Could not read discovery provider: " ++ e⟩], false, none⟩
    | .notFound => ⟨[], true, none⟩
    | .wrongType =>
        ⟨[⟨"Unexpected response type", "Expected *v1.ConfiguredProviderResponse"⟩],
         false, none⟩
    | .ok result => ⟨[], false, some (DiscoveryProviderResource.readMerge state result)⟩

/-- `v1.ConfiguredProviderUpdate`: all fields optional-nilable, zero value
means the field is absent from the payload. -/
structure ConfiguredProviderUpdate where
  name : OptNil String := .unset
  enabled : OptNil Bool := .unset
  interval : OptNil Int := .unset
  config : OptNil ConfigMap := .unset
deriving DecidableEq, Repr

/-- The request builder inside `DiscoveryProviderResource.Update`: each
field included only when the plan value differs from the prior state; a
changed config is re-validated as JSON, aborting on failure. -/
def DiscoveryProviderResource.updateRequest (parseConfig : String → Except String ConfigMap)
    (plan state : DiscoveryProviderResourceModel) :
    Except Diag ConfiguredProviderUpdate :=
  match (if plan.config = state.config then .ok .unset
         else
           match parseConfig plan.config.valueString with
           | .error e =>
               .error (⟨"Invalid Config JSON", "Could not parse config as JSON: " ++ e⟩ : Diag)
           | .ok m => .ok (OptNil.val m) : Except Diag (OptNil ConfigMap)) with
  | .error d => .error d
  | .ok config =>
  .ok {
    name := if plan.name = state.name then .unset else .val plan.name.valueString
    enabled := if plan.enabled = state.enabled then .unset else .val plan.enabled.valueBool
    interval := if plan.interval = state.interval then .unset else .val plan.interval.valueInt64
    config := config }

/-! ## Concrete sample records for witnesses and counterexamples -/

/-- A concrete model-provider plan. -/
def mpSample : ModelProviderResourceModel :=
  { id := .value "11111111-1111-1111-1111-111111111111"
    type := .value "anthropic"
    name := .value "p1"
    apiKey := .value "k1"
    default := .value false }

/-- An all-zero model-provider response variant payload. -/
def mpVariantBlank : ModelProviderVariant :=
  { id := "", type := "", name := "", apiKey := "", default := .unset }

/-- A concrete anthropic-variant response whose `APIKey` comes back
masked. -/
def mpResponseAnthropic : ModelProviderResponse :=
  { type := anthropicResponseTag
    openAI := mpVariantBlank
    anthropic :=
      { id := "22222222-2222-2222-2222-222222222222"
        type := "anthropic"
        name := "p1"
        apiKey := "***"
        default := .set true }
    xai := mpVariantBlank }

/-- A concrete response carrying a discriminator tag outside the three
recognized variants. -/
def mpResponseBogus : ModelProviderResponse :=
  { type := "SomethingElseResponse"
    openAI := mpVariantBlank
    anthropic := mpVariantBlank
    xai := mpVariantBlank }

/-- A concrete OAuth-service plan whose optional URL fields are null. -/
def oauthSample : OAuthServiceResourceModel :=
  { id := .value "33333333-3333-3333-3333-333333333333"
    name := .value "svc"
    displayName := .value "Svc"
    description := .null
    clientID := .value "cid"
    clientSecret := .value "sec"
    authorizationURL := .value "https://auth.example"
    tokenURL := .value "https://token.example"
    userinfoURL := .null
    defaultScopes := .value []
    supportedGrantTypes := .value []
    isActive := .value true
    iconURL := .null
    homepageURL := .null
    createdAt := .value "2024-01-01"
    updatedAt := .value "2024-01-01" }

/-- A concrete MCP-endpoint plan. -/
def mcpSample : MCPEndpointResourceModel :=
  { id := .value "44444444-4444-4444-4444-444444444444"
    name := .value "ep"
    url := .value "https://mcp.example"
    description := .null
    headers := .value []
    devgraphAuth := .value false
    supportsResources := .value false
    oauthServiceID := .null
    immutable := .value false
    active := .value true
    allowedTools := .null
    deniedTools := .null }

/-- A concrete MCP-endpoint response with every optional field unset. -/
def mcpResponseUnset : MCPEndpointResponse :=
  { id := "55555555-5555-5555-5555-555555555555"
    name := "ep"
    url := "https://mcp.example"
    description := .unset
    headers := .unset
    devgraphAuth := .unset
    supportsResources := .unset
    immutable := .unset
    active := .unset
    oauthServiceID := .unset }

/-- A concrete model plan. -/
def modelSample : ModelResourceModel :=
  { id := .value "66666666-6666-6666-6666-666666666666"
    name := .value "m1"
    description := .null
    providerID := .value "11111111-1111-1111-1111-111111111111"
    default := .value false }

/-- A concrete model response with the optional fields unset. -/
def modelResponseUnset : ModelResponse :=
  { id := "66666666-6666-6666-6666-666666666666"
    name := "m1"
    description := .unset
    providerID := "11111111-1111-1111-1111-111111111111"
    default := .unset }

/-- A concrete environment state. -/
def envSample : EnvironmentResourceModel :=
  { id := .value "77777777-7777-7777-7777-777777777777"
    name := .value "env"
    slug := .value "env"
    clerkOrganizationID := .value "org"
    customerID := .value "cust"
    subscriptionID := .value "sub"
    invitedUsers := .value []
    stripeSubscriptionID := .value "stripe"
    instanceURL := .value "https://env.example" }

/-- A concrete chat-suggestion state. -/
def chatSample : ChatSuggestionResourceModel :=
  { id := .value "88888888-8888-8888-8888-888888888888"
    title := .value "t"
    label := .value "l"
    action := .value "a"
    active := .value true }

/-- A concrete chat-suggestion response with `Active` unset. -/
def chatResponseUnset : ChatSuggestionResponse :=
  { id := "88888888-8888-8888-8888-888888888888"
    title := "t"
    label := "l"
    action := "a"
    active := .unset }

/-- A concrete discovery-provider plan. -/
def dpSample : DiscoveryProviderResourceModel :=
  { id := .value "99999999-9999-9999-9999-999999999999"
    name := .value "GitHub Production"
    providerType := .value "github"
    enabled := .value true
    interval := .value 300
    config := .value "notjson" }

/-- A concrete configured-provider response. -/
def cpResponseSample : ConfiguredProviderResponse :=
  { id := "99999999-9999-9999-9999-999999999999"
    name := "GitHub Production"
    providerType := "github"
    enabled := true
    interval := 300 }

/-! ## Theorems -/

/-- Claim C3: the unsupported lifecycle operations (Update and Delete of
`devgraph_environment`, Update of `devgraph_chat_suggestion`) add exactly
one fixed diagnostic error whose title and message are constants
independent of the contents of the record, make no remote call, and leave the
persisted state unchanged (no state write happens). -/
theorem c3_unsupported_operations_fixed_error :
    ∀ (envPlan envState : EnvironmentResourceModel)
      (chatPlan chatState : ChatSuggestionResourceModel),
      EnvironmentResource.update envPlan envState =
        ⟨[⟨"Update not supported",
           "Environments cannot be updated after creation. Please destroy and recreate the resource."⟩],
         false, none⟩ ∧
      EnvironmentResource.delete envState =
        ⟨[⟨"Delete not supported",
           "Environments cannot be deleted through the API. Please manage environment deletion through the Devgraph console."⟩],
         false, none⟩ ∧
      ChatSuggestionResource.update chatPlan chatState =
        ⟨[⟨"Update not supported",
           "Chat suggestions cannot be updated. Please destroy and recreate the resource to make changes."⟩],
         false, none⟩ := by
  intro _ _ _ _
  exact ⟨rfl, rfl, rfl⟩

/-- Claim C8, counterexample: the `type` attribute of the model-provider
schema carries no plan modifier at all, in particular no RequiresReplace,
so the claim that it forces replacement is false. -/
theorem c8_counterexample_model_provider_type_modifiers :
    ModelProviderResource.schemaAttributes.lookup "type" =
      some { required := true } ∧
    PlanModifier.requiresReplace ∉
      ({ required := true } : AttributeSchema).planModifiers := by
  exact ⟨rfl, by decide⟩

/-- Claim C8, amended: the OAuth-service `name` attribute and the
discovery-provider `provider_type` attribute carry a RequiresReplace plan
modifier; the model-provider `type` attribute carries none. -/
theorem c8_amended_requires_replace_markers :
    OAuthServiceResource.schemaAttributes.lookup "name" =
      some { required := true, planModifiers := [.requiresReplace] } ∧
    DiscoveryProviderResource.schemaAttributes.lookup "provider_type" =
      some { required := true, planModifiers := [.requiresReplace] } ∧
    ModelProviderResource.schemaAttributes.lookup "type" =
      some { required := true } := by
  exact ⟨rfl, rfl, rfl⟩

/-- Claim C4: for the Read of every resource, a stored identifier that is not
found remotely (a typed not-found response for the get-by-id resources; no
matching element of the list response for the list-scan resources) removes
the resource from tracked state without adding any diagnostic.  The UUID
parse of the stored ID, where the code performs one, is assumed to
succeed. -/
theorem c4_read_not_found_removes_without_error :
    (∀ (p : String → Except String String) (s : ModelProviderResourceModel) (u : String),
       p s.id.valueString = .ok u →
       ModelProviderResource.read p s .notFound = ⟨[], true, none⟩) ∧
    (∀ (p : String → Except String String) (s : OAuthServiceResourceModel) (u : String),
       p s.id.valueString = .ok u →
       OAuthServiceResource.read p s .notFound = ⟨[], true, none⟩) ∧
    (∀ (p : String → Except String String) (s : MCPEndpointResourceModel) (u : String),
       p s.id.valueString = .ok u →
       MCPEndpointResource.read p s .notFound = ⟨[], true, none⟩) ∧
    (∀ s : ModelResourceModel,
       ModelResource.read s .notFound = ⟨[], true, none⟩) ∧
    (∀ (p : String → Except String String) (s : DiscoveryProviderResourceModel) (u : String),
       p s.id.valueString = .ok u →
       DiscoveryProviderResource.read p s .notFound = ⟨[], true, none⟩) ∧
    (∀ (s : EnvironmentResourceModel) (envs : List EnvironmentResponse),
       envs.find? (fun env => env.id == s.id.valueString) = none →
       EnvironmentResource.read s (.ok envs) = ⟨[], true, none⟩) ∧
    (∀ (p : String → Except String String) (s : ChatSuggestionResourceModel) (u : String)
       (sugs : List ChatSuggestionResponse),
       p s.id.valueString = .ok u →
       sugs.find? (fun x => x.id == u) = none →
       ChatSuggestionResource.read p s (.ok sugs) = ⟨[], true, none⟩) := by
  refine ⟨?_, ?_, ?_, ?_, ?_, ?_, ?_⟩
  · intro p s u h
    simp [ModelProviderResource.read, h]
  · intro p s u h
    simp [OAuthServiceResource.read, h]
  · intro p s u h
    simp [MCPEndpointResource.read, h]
  · intro s
    simp [ModelResource.read]
  · intro p s u h
    simp [DiscoveryProviderResource.read, h]
  · intro s envs h
    simp [EnvironmentResource.read, h]
  · intro p s u sugs h hfind
    simp [ChatSuggestionResource.read, h, hfind]

/-- Witness for C4: the not-found branch observed at concrete inputs for
all seven resources. -/
theorem c4_read_not_found_witness :
    ModelProviderResource.read Except.ok mpSample .notFound = ⟨[], true, none⟩ ∧
    OAuthServiceResource.read Except.ok oauthSample .notFound = ⟨[], true, none⟩ ∧
    MCPEndpointResource.read Except.ok mcpSample .notFound = ⟨[], true, none⟩ ∧
    ModelResource.read modelSample .notFound = ⟨[], true, none⟩ ∧
    DiscoveryProviderResource.read Except.ok dpSample .notFound = ⟨[], true, none⟩ ∧
    EnvironmentResource.read envSample (.ok []) = ⟨[], true, none⟩ ∧
    ChatSuggestionResource.read Except.ok chatSample (.ok []) = ⟨[], true, none⟩ := by
  refine ⟨?_, ?_, ?_, ?_, ?_, ?_, ?_⟩
  · exact c4_read_not_found_removes_without_error.1 Except.ok mpSample _ rfl
  · exact c4_read_not_found_removes_without_error.2.1 Except.ok oauthSample _ rfl
  · exact c4_read_not_found_removes_without_error.2.2.1 Except.ok mcpSample _ rfl
  · exact c4_read_not_found_removes_without_error.2.2.2.1 modelSample
  · exact c4_read_not_found_removes_without_error.2.2.2.2.1 Except.ok dpSample _ rfl
  · exact c4_read_not_found_removes_without_error.2.2.2.2.2.1 envSample [] rfl
  · exact c4_read_not_found_removes_without_error.2.2.2.2.2.2 Except.ok chatSample _ [] rfl rfl

/-- Claim C10: the `devgraph_model` Update payload type has no name field
(structurally, `ModelUpdate` carries at most description, provider_id and
default); the remote call is addressed by the name in the prior state; and a
plan that changes only the name produces an all-unset payload addressed to
the old name. -/
theorem c10_model_update_never_sends_name :
    (∀ (parseUUID : String → Except String String) (plan state : ModelResourceModel)
       (req : ModelUpdate) (params : UpdateModelParams),
       ModelResource.updateCall parseUUID plan state = .ok (req, params) →
       params.modelName = state.name.valueString ∧
       (plan.description = state.description → req.description = .unset) ∧
       (plan.providerID = state.providerID → req.providerID = .unset) ∧
       (plan.default = state.default → req.default = .unset)) ∧
    (∀ (parseUUID : String → Except String String) (state : ModelResourceModel) (n : TFString),
       ModelResource.updateCall parseUUID { state with name := n } state =
         .ok ({ description := .unset, providerID := .unset, default := .unset },
              ⟨state.name.valueString⟩)) := by
  constructor
  · intro parseUUID plan state req params h
    unfold ModelResource.updateCall at h
    by_cases hp : plan.providerID = state.providerID
    · simp only [hp, if_pos, if_true] at h
      by_cases hd : plan.description = state.description
      · by_cases hb : plan.default = state.default
        · simp [hd, hb] at h
          rcases h with ⟨h1, h2⟩
          simp [← h1, ← h2, hd, hb]
        · simp [hd, hb] at h
          rcases h with ⟨h1, h2⟩
          simp [← h1, ← h2, hd, hb]
      · by_cases hb : plan.default = state.default
        · simp [hd, hb] at h
          rcases h with ⟨h1, h2⟩
          simp [← h1, ← h2, hd, hb]
        · simp [hd, hb] at h
          rcases h with ⟨h1, h2⟩
          simp [← h1, ← h2, hd, hb]
    · rcases hu : parseUUID plan.providerID.valueString with e | u
      · simp [hp, hu] at h
      · simp only [hp, hu, if_neg, if_false] at h
        by_cases hd : plan.description = state.description
        · by_cases hb : plan.default = state.default
          · simp [hd, hb, hp] at h
            rcases h with ⟨h1, h2⟩
            simp [← h1, ← h2, hd, hb, hp]
          · simp [hd, hb, hp] at h
            rcases h with ⟨h1, h2⟩
            simp [← h1, ← h2, hd, hb, hp]
        · by_cases hb : plan.default = state.default
          · simp [hd, hb, hp] at h
            rcases h with ⟨h1, h2⟩
            simp [← h1, ← h2, hd, hb, hp]
          · simp [hd, hb, hp] at h
            rcases h with ⟨h1, h2⟩
            simp [← h1, ← h2, hd, hb, hp]
  · intro parseUUID state n
    simp [ModelResource.updateCall]

/-- Witness for C10: a plan renaming `m1` to `m2` yields the empty payload
addressed to the old name `m1`. -/
theorem c10_model_update_witness :
    (⟨"m1"⟩ : UpdateModelParams).modelName = modelSample.name.valueString ∧
    ModelUpdate.description
      { description := .unset, providerID := .unset, default := .unset } = .unset ∧
    ModelResource.updateCall Except.ok { modelSample with name := .value "m2" } modelSample =
      .ok ({ description := .unset, providerID := .unset, default := .unset },
           ⟨modelSample.name.valueString⟩) := by
  have h := c10_model_update_never_sends_name.1 Except.ok modelSample modelSample
    { description := .unset, providerID := .unset, default := .unset } ⟨"m1"⟩ rfl
  exact ⟨h.1, h.2.1 rfl, c10_model_update_never_sends_name.2 Except.ok modelSample (.value "m2")⟩

/-- Claim C2, counterexample: a model-provider Create whose response comes
back with a masked `APIKey` overwrites the locally supplied `k1` with the
masked `***` in the merged record, so the claim that no secret field is
ever replaced by the server-returned value is false. -/
theorem c2_counterexample_api_key_overwritten :
    (ModelProviderResource.applyResponse true mpSample mpResponseAnthropic).apiKey =
      TFString.value "***" ∧
    mpSample.apiKey = TFString.value "k1" ∧
    TFString.value "***" ≠ TFString.value "k1" :=
  ⟨rfl, rfl, by decide⟩

/-- Claim C2, amended: the OAuth-service `client_secret` and the
discovery-provider `config` keep the locally supplied value through every
Create/Read/Update response merge, but the model-provider `api_key` does
not: every recognized-variant merge overwrites it with the value the
server returned. -/
theorem c2_amended_secret_field_handling :
    (∀ (plan : OAuthServiceResourceModel) (r : OAuthServiceResponse),
       (OAuthServiceResource.createMerge plan r).clientSecret = plan.clientSecret ∧
       (OAuthServiceResource.readMerge plan r).clientSecret = plan.clientSecret ∧
       (OAuthServiceResource.updateMerge plan r).clientSecret = plan.clientSecret) ∧
    (∀ (plan : DiscoveryProviderResourceModel) (r : ConfiguredProviderResponse),
       (DiscoveryProviderResource.createMerge plan r).config = plan.config ∧
       (DiscoveryProviderResource.readMerge plan r).config = plan.config) ∧
    (∀ (setID : Bool) (m : ModelProviderResourceModel) (p : ModelProviderVariant),
       (ModelProviderResource.applyVariant setID m p).apiKey = TFString.value p.apiKey) := by
  refine ⟨?_, ?_, ?_⟩
  · intro plan r
    exact ⟨rfl, rfl, rfl⟩
  · intro plan r
    exact ⟨rfl, rfl⟩
  · intro setID m p
    rfl

/-- Claim C6: when the config string fails JSON validation
(`parseConfig`, standing for `json.Unmarshal` into a string-keyed map,
returns an error), `devgraph_discovery_provider` Create adds the "Invalid
Config JSON" diagnostic and returns before the remote call with no state
written; when validation succeeds, no "Invalid Config JSON" diagnostic is
ever produced. -/
theorem c6_discovery_create_config_validation :
    (∀ (parseConfig : String → Except String ConfigMap)
       (plan : DiscoveryProviderResourceModel) (call : DiscoveryCreateResult) (e : String),
       parseConfig plan.config.valueString = .error e →
       DiscoveryProviderResource.create parseConfig plan call =
         ⟨[⟨"Invalid Config JSON", "Could not parse config as JSON: " ++ e⟩], false, none⟩) ∧
    (∀ (parseConfig : String → Except String ConfigMap)
       (plan : DiscoveryProviderResourceModel) (call : DiscoveryCreateResult) (m : ConfigMap),
       parseConfig plan.config.valueString = .ok m →
       ∀ d ∈ (DiscoveryProviderResource.create parseConfig plan call).diags,
         d.summary ≠ "Invalid Config JSON") := by
  constructor
  · intro parseConfig plan call e h
    simp [DiscoveryProviderResource.create, h]
  · intro parseConfig plan call m h d hd
    unfold DiscoveryProviderResource.create at hd
    rw [h] at hd
    cases call with
    | err e =>
        simp at hd
        subst hd
        simp [Diag.summary]
    | ok result =>
        simp at hd
    | notFound =>
        simp at hd
        subst hd
        simp [Diag.summary]
    | wrongType =>
        simp at hd
        subst hd
        decide

/-- Witness for C6: a failing parse aborts before the call; with a
succeeding parse the only diagnostic that can appear has a different
summary. -/
theorem c6_discovery_create_config_witness :
    DiscoveryProviderResource.create (fun _ => .error "x") dpSample .wrongType =
      ⟨[⟨"Invalid Config JSON", "Could not parse config as JSON: x"⟩], false, none⟩ ∧
    Diag.summary ⟨"Unexpected response type", "Expected *v1.ConfiguredProviderResponse"⟩ ≠
      "Invalid Config JSON" := by
  constructor
  · exact c6_discovery_create_config_validation.1 (fun _ => .error "x") dpSample .wrongType "x" rfl
  · exact c6_discovery_create_config_validation.2 (fun _ => .ok []) dpSample .wrongType [] rfl
      ⟨"Unexpected response type", "Expected *v1.ConfiguredProviderResponse"⟩ (by decide)

/-- Claim C7, counterexample: a model-provider Create whose response
carries the unrecognized discriminator `SomethingElseResponse` completes
with no diagnostic and persists the plan with the response merge silently
skipped, so the claim that an unexpected-shape error is reported is
false. -/
theorem c7_counterexample_unrecognized_tag_persisted :
    ModelProviderResource.create mpSample (.ok mpResponseBogus) = ⟨[], true, some mpSample⟩ ∧
    mpResponseBogus.type ≠ openAIResponseTag ∧
    mpResponseBogus.type ≠ anthropicResponseTag ∧
    mpResponseBogus.type ≠ xaiResponseTag := by
  exact ⟨rfl, by decide, by decide, by decide⟩

/-- Claim C7, amended: on a Create, Read or Update response whose
discriminator tag is outside the three recognized variants, the operation
adds no diagnostic, silently skips the response merge, and persists the
un-merged record (the plan for Create/Update, the prior state for
Read). -/
theorem c7_amended_unrecognized_tag_skips_merge :
    ∀ (plan state : ModelProviderResourceModel) (r : ModelProviderResponse)
      (parseUUID : String → Except String String) (u : String),
      r.type ≠ openAIResponseTag → r.type ≠ anthropicResponseTag → r.type ≠ xaiResponseTag →
      ((plan.type.valueString = "openai" ∨ plan.type.valueString = "anthropic" ∨
          plan.type.valueString = "xai") →
        ModelProviderResource.create plan (.ok r) = ⟨[], true, some plan⟩) ∧
      (parseUUID state.id.valueString = .ok u →
        ModelProviderResource.read parseUUID state (.ok r) = ⟨[], false, some state⟩ ∧
        ModelProviderResource.update parseUUID plan state (.ok r) = ⟨[], true, some plan⟩) := by
  intro plan state r parseUUID u h1 h2 h3
  refine ⟨?_, ?_⟩
  · intro hv
    simp only [ModelProviderResource.create]
    rw [if_pos hv]
    simp [ModelProviderResource.applyResponse, h1, h2, h3]
  · intro hp
    constructor
    · simp [ModelProviderResource.read, hp, ModelProviderResource.applyResponse, h1, h2, h3]
    · simp [ModelProviderResource.update, hp, ModelProviderResource.applyResponse, h1, h2, h3]

/-- Witness for the amended C7 at the concrete unrecognized response. -/
theorem c7_amended_unrecognized_tag_witness :
    ModelProviderResource.create mpSample (.ok mpResponseBogus) = ⟨[], true, some mpSample⟩ ∧
    ModelProviderResource.read Except.ok mpSample (.ok mpResponseBogus) =
      ⟨[], false, some mpSample⟩ ∧
    ModelProviderResource.update Except.ok mpSample mpSample (.ok mpResponseBogus) =
      ⟨[], true, some mpSample⟩ := by
  have h := c7_amended_unrecognized_tag_skips_merge mpSample mpSample mpResponseBogus Except.ok
    mpSample.id.valueString (by decide) (by decide) (by decide)
  exact ⟨h.1 (Or.inr (Or.inl rfl)), (h.2 rfl).1, (h.2 rfl).2⟩

/-- Claim C9: every field merged through the optional-wrapper pattern
(model-provider `default`; MCP-endpoint `description`, `headers`, the four
booleans and `oauth_service_id`; model `description` and `default`;
chat-suggestion `active`) keeps its prior plan/state value whenever the
response leaves the field unset. -/
theorem c9_unset_response_fields_preserved :
    (∀ (setID : Bool) (m : ModelProviderResourceModel) (p : ModelProviderVariant),
       p.default = .unset →
       (ModelProviderResource.applyVariant setID m p).default = m.default) ∧
    (∀ (plan : MCPEndpointResourceModel) (r : MCPEndpointResponse),
       (r.description = .unset →
         (MCPEndpointResource.createMerge plan r).description = plan.description ∧
         (MCPEndpointResource.readMerge plan r).description = plan.description ∧
         (MCPEndpointResource.updateMerge plan r).description = plan.description) ∧
       (r.headers = .unset →
         (MCPEndpointResource.createMerge plan r).headers = plan.headers ∧
         (MCPEndpointResource.readMerge plan r).headers = plan.headers) ∧
       (r.devgraphAuth = .unset →
         (MCPEndpointResource.createMerge plan r).devgraphAuth = plan.devgraphAuth ∧
         (MCPEndpointResource.readMerge plan r).devgraphAuth = plan.devgraphAuth) ∧
       (r.supportsResources = .unset →
         (MCPEndpointResource.createMerge plan r).supportsResources = plan.supportsResources ∧
         (MCPEndpointResource.readMerge plan r).supportsResources = plan.supportsResources) ∧
       (r.immutable = .unset →
         (MCPEndpointResource.createMerge plan r).immutable = plan.immutable ∧
         (MCPEndpointResource.readMerge plan r).immutable = plan.immutable) ∧
       (r.active = .unset →
         (MCPEndpointResource.createMerge plan r).active = plan.active ∧
         (MCPEndpointResource.readMerge plan r).active = plan.active) ∧
       (r.oauthServiceID = .unset →
         (MCPEndpointResource.createMerge plan r).oauthServiceID = plan.oauthServiceID ∧
         (MCPEndpointResource.readMerge plan r).oauthServiceID = plan.oauthServiceID)) ∧
    (∀ (m : ModelResourceModel) (r : ModelResponse),
       (r.description = .unset → (ModelResource.applyResponse m r).description = m.description) ∧
       (r.default = .unset → (ModelResource.applyResponse m r).default = m.default)) ∧
    (∀ (plan : ChatSuggestionResourceModel) (r : ChatSuggestionResponse),
       r.active = .unset → (ChatSuggestionResource.createMerge plan r).active = plan.active) := by
  refine ⟨?_, ?_, ?_, ?_⟩
  · intro setID m p h
    simp [ModelProviderResource.applyVariant, h, Opt.isSet]
  · intro plan r
    refine ⟨?_, ?_, ?_, ?_, ?_, ?_, ?_⟩ <;> intro h <;>
      simp [MCPEndpointResource.createMerge, MCPEndpointResource.readMerge,
        MCPEndpointResource.updateMerge, h, Opt.isSet]
  · intro m r
    constructor <;> intro h <;>
      simp [ModelResource.applyResponse, h, Opt.isSet]
  · intro plan r h
    simp [ChatSuggestionResource.createMerge, h, Opt.isSet]

/-- Witness for C9 at concrete all-unset responses. -/
theorem c9_unset_response_fields_witness :
    (ModelProviderResource.applyVariant true mpSample mpVariantBlank).default = mpSample.default ∧
    (MCPEndpointResource.createMerge mcpSample mcpResponseUnset).description = mcpSample.description ∧
    (MCPEndpointResource.readMerge mcpSample mcpResponseUnset).headers = mcpSample.headers ∧
    (MCPEndpointResource.createMerge mcpSample mcpResponseUnset).oauthServiceID =
      mcpSample.oauthServiceID ∧
    (ModelResource.applyResponse modelSample modelResponseUnset).description =
      modelSample.description ∧
    (ModelResource.applyResponse modelSample modelResponseUnset).default = modelSample.default ∧
    (ChatSuggestionResource.createMerge chatSample chatResponseUnset).active = chatSample.active := by
  have h2 := c9_unset_response_fields_preserved.2.1 mcpSample mcpResponseUnset
  have h3 := c9_unset_response_fields_preserved.2.2.1 modelSample modelResponseUnset
  exact ⟨c9_unset_response_fields_preserved.1 true mpSample mpVariantBlank rfl,
    (h2.1 rfl).1, (h2.2.1 rfl).2, (h2.2.2.2.2.2.2 rfl).1, h3.1 rfl, h3.2 rfl,
    c9_unset_response_fields_preserved.2.2.2 chatSample chatResponseUnset rfl⟩

/-- Claim C5: assuming the remote API echoes back for the Read exactly the
response returned at Create time, a successful Create immediately followed
by a successful Read of the same identifier reproduces the post-Create
record exactly (hence on every non-secret field).  For the get-by-id
resources this is the Read merge applied to the post-Create record; for
the list-scan resources (environment, chat suggestion) the full Read runs
against a list response containing the created object. -/
theorem c5_create_then_read_roundtrip :
    (∀ (plan : ModelProviderResourceModel) (r : ModelProviderResponse),
       ModelProviderResource.applyResponse false
           (ModelProviderResource.applyResponse true plan r) r
         = ModelProviderResource.applyResponse true plan r) ∧
    (∀ (plan : OAuthServiceResourceModel) (r : OAuthServiceResponse),
       OAuthServiceResource.readMerge (OAuthServiceResource.createMerge plan r) r
         = OAuthServiceResource.createMerge plan r) ∧
    (∀ (plan : MCPEndpointResourceModel) (r : MCPEndpointResponse),
       MCPEndpointResource.readMerge (MCPEndpointResource.createMerge plan r) r
         = MCPEndpointResource.createMerge plan r) ∧
    (∀ (plan : ModelResourceModel) (r : ModelResponse),
       ModelResource.applyResponse (ModelResource.applyResponse plan r) r
         = ModelResource.applyResponse plan r) ∧
    (∀ (plan : DiscoveryProviderResourceModel) (r : ConfiguredProviderResponse),
       DiscoveryProviderResource.readMerge (DiscoveryProviderResource.createMerge plan r) r
         = DiscoveryProviderResource.createMerge plan r) ∧
    (∀ (plan : EnvironmentResourceModel) (r : EnvironmentResponse),
       EnvironmentResource.read (EnvironmentResource.createMerge plan r) (.ok [r])
         = ⟨[], false, some (EnvironmentResource.createMerge plan r)⟩) ∧
    (∀ (plan : ChatSuggestionResourceModel) (r : ChatSuggestionResponse),
       ChatSuggestionResource.read Except.ok (ChatSuggestionResource.createMerge plan r)
           (.ok [r])
         = ⟨[], false, some (ChatSuggestionResource.createMerge plan r)⟩) := by
  refine ⟨?_, ?_, ?_, ?_, ?_, ?_, ?_⟩
  · intro plan r
    simp only [ModelProviderResource.applyResponse]
    split_ifs <;> simp [ModelProviderResource.applyVariant] <;> split_ifs <;> simp_all
  · intro plan r
    simp [OAuthServiceResource.createMerge, OAuthServiceResource.readMerge]
  · intro plan r
    simp only [MCPEndpointResource.createMerge, MCPEndpointResource.readMerge]
    split_ifs <;> simp_all
  · intro plan r
    simp only [ModelResource.applyResponse]
    split_ifs <;> simp_all
  · intro plan r
    simp [DiscoveryProviderResource.createMerge, DiscoveryProviderResource.readMerge]
  · intro plan r
    simp [EnvironmentResource.read, EnvironmentResource.createMerge, List.find?,
      TFString.valueString]
  · intro plan r
    simp only [ChatSuggestionResource.read, ChatSuggestionResource.createMerge,
      TFString.valueString, List.find?]
    simp
    split_ifs <;> simp_all

/-- Claim C1, counterexample: with a plan identical to the prior state
(the plan value of every field equals its prior-state value), the OAuth-service
update request still carries `display_name` and the MCP-endpoint update
request still carries `name` — these two builders never consult the prior
state — so the claim that unchanged fields are omitted from the Update of
every resource is false. -/
theorem c1_counterexample_unchanged_fields_included :
    Except.map (fun req => req.displayName)
        (OAuthServiceResource.updateRequest Except.ok oauthSample) =
      .ok (OptNil.val "Svc") ∧
    (OptNil.val "Svc" : OptNil String) ≠ .unset ∧
    Except.map (fun req => req.name)
        (MCPEndpointResource.updateRequest Except.ok mcpSample) =
      .ok (OptNil.val "ep") ∧
    (OptNil.val "ep" : OptNil String) ≠ .unset := by
  exact ⟨rfl, by decide, rfl, by decide⟩

/-- Characterization of one URL-typed field of the OAuth update request
builder, given that the builder step succeeded. -/
theorem OAuthServiceResource.urlField_ok
    {parseURL : String → Except String String} {s : String} {f : TFString}
    {o : OptNil String}
    (h : OAuthServiceResource.urlField parseURL s f = .ok o) :
    (o = .unset ↔ f.isNull = true) ∧
    (f.isNull = false → ∃ u, parseURL f.valueString = .ok u ∧ o = .val u) := by
  unfold OAuthServiceResource.urlField at h
  by_cases hn : f.isNull
  · rw [if_pos hn] at h
    simp only [Except.ok.injEq] at h
    subst h
    simp [hn]
  · rw [if_neg hn] at h
    rcases hu : parseURL f.valueString with e | u <;> rw [hu] at h
    · simp at h
    · simp only [Except.ok.injEq] at h
      subst h
      simp_all

/-- Claim C1, amended: only the model-provider, model and
discovery-provider Update operations diff the plan against the prior
state — a field appears in the payload exactly when its plan value differs
from its prior-state value, encoded with `v1.NewOptNil…` — while the
OAuth-service and MCP-endpoint Update operations never consult the prior
state: they include exactly the fields whose plan value is non-null (list
fields: neither null nor unknown), so an unchanged non-null field is still
sent. -/
theorem c1_amended_update_payload_characterization :
    (∀ plan state : ModelProviderResourceModel,
      ((ModelProviderResource.updateRequest plan state).name = .unset ↔
        plan.name = state.name) ∧
      (plan.name ≠ state.name →
        (ModelProviderResource.updateRequest plan state).name = .val plan.name.valueString) ∧
      ((ModelProviderResource.updateRequest plan state).apiKey = .unset ↔
        plan.apiKey = state.apiKey) ∧
      (plan.apiKey ≠ state.apiKey →
        (ModelProviderResource.updateRequest plan state).apiKey =
          .val plan.apiKey.valueString) ∧
      ((ModelProviderResource.updateRequest plan state).default = .unset ↔
        plan.default = state.default) ∧
      (plan.default ≠ state.default →
        (ModelProviderResource.updateRequest plan state).default =
          .val plan.default.valueBool)) ∧
    (∀ (parseUUID : String → Except String String) (plan state : ModelResourceModel)
       (req : ModelUpdate) (params : UpdateModelParams),
      ModelResource.updateCall parseUUID plan state = .ok (req, params) →
      (req.description = .unset ↔ plan.description = state.description) ∧
      (plan.description ≠ state.description →
        req.description =
          if plan.description.isNull then .val "" else .val plan.description.valueString) ∧
      (req.providerID = .unset ↔ plan.providerID = state.providerID) ∧
      (plan.providerID ≠ state.providerID →
        ∃ u, parseUUID plan.providerID.valueString = .ok u ∧ req.providerID = .val u) ∧
      (req.default = .unset ↔ plan.default = state.default) ∧
      (plan.default ≠ state.default → req.default = .val plan.default.valueBool)) ∧
    (∀ (parseConfig : String → Except String ConfigMap)
       (plan state : DiscoveryProviderResourceModel) (req : ConfiguredProviderUpdate),
      DiscoveryProviderResource.updateRequest parseConfig plan state = .ok req →
      (req.name = .unset ↔ plan.name = state.name) ∧
      (plan.name ≠ state.name → req.name = .val plan.name.valueString) ∧
      (req.enabled = .unset ↔ plan.enabled = state.enabled) ∧
      (plan.enabled ≠ state.enabled → req.enabled = .val plan.enabled.valueBool) ∧
      (req.interval = .unset ↔ plan.interval = state.interval) ∧
      (plan.interval ≠ state.interval → req.interval = .val plan.interval.valueInt64) ∧
      (req.config = .unset ↔ plan.config = state.config) ∧
      (plan.config ≠ state.config →
        ∃ m, parseConfig plan.config.valueString = .ok m ∧ req.config = .val m)) ∧
    (∀ (parseURL : String → Except String String) (plan : OAuthServiceResourceModel)
       (req : OAuthServiceUpdate),
      OAuthServiceResource.updateRequest parseURL plan = .ok req →
      req.displayName =
        (if plan.displayName.isNull then .unset else .val plan.displayName.valueString) ∧
      req.clientID =
        (if plan.clientID.isNull then .unset else .val plan.clientID.valueString) ∧
      req.clientSecret =
        (if plan.clientSecret.isNull then .unset else .val plan.clientSecret.valueString) ∧
      req.description =
        (if plan.description.isNull then .unset else .val plan.description.valueString) ∧
      req.isActive =
        (if plan.isActive.isNull then .unset else .val plan.isActive.valueBool) ∧
      req.defaultScopes =
        (if !plan.defaultScopes.isNull && !plan.defaultScopes.isUnknown then
          .val plan.defaultScopes.elements else .unset) ∧
      req.supportedGrantTypes =
        (if !plan.supportedGrantTypes.isNull && !plan.supportedGrantTypes.isUnknown then
          .val plan.supportedGrantTypes.elements else .unset) ∧
      (req.authorizationURL = .unset ↔ plan.authorizationURL.isNull = true) ∧
      (plan.authorizationURL.isNull = false →
        ∃ u, parseURL plan.authorizationURL.valueString = .ok u ∧
          req.authorizationURL = .val u) ∧
      (req.tokenURL = .unset ↔ plan.tokenURL.isNull = true) ∧
      (plan.tokenURL.isNull = false →
        ∃ u, parseURL plan.tokenURL.valueString = .ok u ∧ req.tokenURL = .val u) ∧
      (req.userinfoURL = .unset ↔ plan.userinfoURL.isNull = true) ∧
      (plan.userinfoURL.isNull = false →
        ∃ u, parseURL plan.userinfoURL.valueString = .ok u ∧ req.userinfoURL = .val u) ∧
      (req.iconURL = .unset ↔ plan.iconURL.isNull = true) ∧
      (plan.iconURL.isNull = false →
        ∃ u, parseURL plan.iconURL.valueString = .ok u ∧ req.iconURL = .val u) ∧
      (req.homepageURL = .unset ↔ plan.homepageURL.isNull = true) ∧
      (plan.homepageURL.isNull = false →
        ∃ u, parseURL plan.homepageURL.valueString = .ok u ∧ req.homepageURL = .val u)) ∧
    (∀ (parseUUID : String → Except String String) (plan : MCPEndpointResourceModel)
       (req : MCPEndpointUpdate),
      MCPEndpointResource.updateRequest parseUUID plan = .ok req →
      req.name = (if plan.name.isNull then .unset else .val plan.name.valueString) ∧
      req.url = (if plan.url.isNull then .unset else .val plan.url.valueString) ∧
      req.description =
        (if plan.description.isNull then .unset else .val plan.description.valueString) ∧
      req.headers = (if plan.headers.isNull then .unset else .val plan.headers.entries) ∧
      req.devgraphAuth =
        (if plan.devgraphAuth.isNull then .unset else .val plan.devgraphAuth.valueBool) ∧
      req.supportsResources =
        (if plan.supportsResources.isNull then .unset
         else .val plan.supportsResources.valueBool) ∧
      req.immutable =
        (if plan.immutable.isNull then .unset else .val plan.immutable.valueBool) ∧
      req.active = (if plan.active.isNull then .unset else .val plan.active.valueBool) ∧
      req.allowedTools =
        (if plan.allowedTools.isNull then .unset else .val plan.allowedTools.elements) ∧
      req.deniedTools =
        (if plan.deniedTools.isNull then .unset else .val plan.deniedTools.elements) ∧
      (req.oauthServiceID = .unset ↔ plan.oauthServiceID.isNull = true) ∧
      (plan.oauthServiceID.isNull = false →
        ∃ u, parseUUID plan.oauthServiceID.valueString = .ok u ∧
          req.oauthServiceID = .val u)) := by
  refine ⟨?_, ?_, ?_, ?_, ?_⟩
  · intro plan state
    refine ⟨?_, ?_, ?_, ?_, ?_, ?_⟩
    · by_cases h : plan.name = state.name <;> simp [ModelProviderResource.updateRequest, h]
    · intro h
      simp [ModelProviderResource.updateRequest, h]
    · by_cases h : plan.apiKey = state.apiKey <;> simp [ModelProviderResource.updateRequest, h]
    · intro h
      simp [ModelProviderResource.updateRequest, h]
    · by_cases h : plan.default = state.default <;> simp [ModelProviderResource.updateRequest, h]
    · intro h
      simp [ModelProviderResource.updateRequest, h]
  · intro parseUUID plan state req params h
    unfold ModelResource.updateCall at h
    by_cases hp : plan.providerID = state.providerID
    · rw [if_pos hp] at h
      simp only [Except.ok.injEq, Prod.mk.injEq] at h
      obtain ⟨hreq, -⟩ := h
      subst hreq
      refine ⟨?_, ?_, by simp [hp], fun hne => absurd hp hne, ?_, ?_⟩
      · by_cases hd : plan.description = state.description <;>
          by_cases hdn : plan.description.isNull <;> simp [hd, hdn]
      · intro hd
        simp [hd]
      · by_cases hb : plan.default = state.default <;> simp [hb]
      · intro hb
        simp [hb]
    · rw [if_neg hp] at h
      rcases hu : parseUUID plan.providerID.valueString with e | u <;> rw [hu] at h
      · simp at h
      · simp only [Except.ok.injEq, Prod.mk.injEq] at h
        obtain ⟨hreq, -⟩ := h
        subst hreq
        refine ⟨?_, ?_, by simp [hp], fun _ => ⟨u, rfl, rfl⟩, ?_, ?_⟩
        · by_cases hd : plan.description = state.description <;>
            by_cases hdn : plan.description.isNull <;> simp [hd, hdn]
        · intro hd
          simp [hd]
        · by_cases hb : plan.default = state.default <;> simp [hb]
        · intro hb
          simp [hb]
  · intro parseConfig plan state req h
    unfold DiscoveryProviderResource.updateRequest at h
    by_cases hc : plan.config = state.config
    · rw [if_pos hc] at h
      simp only [Except.ok.injEq] at h
      subst h
      refine ⟨?_, ?_, ?_, ?_, ?_, ?_, by simp [hc], fun hne => absurd hc hne⟩
      · by_cases h : plan.name = state.name <;> simp [h]
      · intro h
        simp [h]
      · by_cases h : plan.enabled = state.enabled <;> simp [h]
      · intro h
        simp [h]
      · by_cases h : plan.interval = state.interval <;> simp [h]
      · intro h
        simp [h]
    · rw [if_neg hc] at h
      rcases hm : parseConfig plan.config.valueString with e | m <;> rw [hm] at h
      · simp at h
      · simp only [Except.ok.injEq] at h
        subst h
        refine ⟨?_, ?_, ?_, ?_, ?_, ?_, by simp [hc], fun _ => ⟨m, rfl, rfl⟩⟩
        · by_cases h : plan.name = state.name <;> simp [h]
        · intro h
          simp [h]
        · by_cases h : plan.enabled = state.enabled <;> simp [h]
        · intro h
          simp [h]
        · by_cases h : plan.interval = state.interval <;> simp [h]
        · intro h
          simp [h]
  · intro parseURL plan req h
    unfold OAuthServiceResource.updateRequest at h
    split at h
    · simp at h
    · rename_i a1 h1
      split at h
      · simp at h
      · rename_i a2 h2
        split at h
        · simp at h
        · rename_i a3 h3
          split at h
          · simp at h
          · rename_i a4 h4
            split at h
            · simp at h
            · rename_i a5 h5
              simp only [Except.ok.injEq] at h
              subst h
              obtain ⟨e1, v1⟩ := OAuthServiceResource.urlField_ok h1
              obtain ⟨e2, v2⟩ := OAuthServiceResource.urlField_ok h2
              obtain ⟨e3, v3⟩ := OAuthServiceResource.urlField_ok h3
              obtain ⟨e4, v4⟩ := OAuthServiceResource.urlField_ok h4
              obtain ⟨e5, v5⟩ := OAuthServiceResource.urlField_ok h5
              exact ⟨rfl, rfl, rfl, rfl, rfl, rfl, rfl, e1, v1, e2, v2, e3, v3, e4, v4, e5, v5⟩
  · intro parseUUID plan req h
    unfold MCPEndpointResource.updateRequest at h
    cases hn : plan.oauthServiceID.isNull with
    | true =>
        rw [hn] at h
        simp only [if_true, Except.ok.injEq] at h
        subst h
        exact ⟨rfl, rfl, rfl, rfl, rfl, rfl, rfl, rfl, rfl, rfl, by simp [hn],
          by simp [hn]⟩
    | false =>
        rw [hn] at h
        simp only [Bool.false_eq_true, if_false] at h
        rcases hu : parseUUID plan.oauthServiceID.valueString with e | u <;> rw [hu] at h
        · simp at h
        · simp only [Except.ok.injEq] at h
          subst h
          exact ⟨rfl, rfl, rfl, rfl, rfl, rfl, rfl, rfl, rfl, rfl, by simp [hn],
            fun _ => ⟨u, rfl, rfl⟩⟩

/-- Witness for the amended C1: concrete update payloads for all five
resources with every hypothesis discharged. -/
theorem c1_amended_update_payload_witness :
    (ModelProviderResource.updateRequest mpSample mpSample).name = .unset ∧
    (ModelProviderResource.updateRequest { mpSample with name := .value "p2" } mpSample).name =
      .val "p2" ∧
    ((⟨.unset, .unset, .unset⟩ : ModelUpdate).description = .unset ↔
      modelSample.description = modelSample.description) ∧
    ((⟨.unset, .unset, .unset, .unset⟩ : ConfiguredProviderUpdate).config = .unset ↔
      dpSample.config = dpSample.config) ∧
    OAuthServiceUpdate.displayName
        ⟨.val "Svc", .val "cid", .val "sec", .val "https://auth.example",
         .val "https://token.example", .unset, .val [], .val [], .unset, .val true,
         .unset, .unset⟩ =
      (if oauthSample.displayName.isNull then .unset
       else .val oauthSample.displayName.valueString) ∧
    MCPEndpointUpdate.name
        ⟨.val "ep", .val "https://mcp.example", .unset, .val [], .val false, .val false,
         .val false, .val true, .unset, .unset, .unset⟩ =
      (if mcpSample.name.isNull then .unset else .val mcpSample.name.valueString) := by
  refine ⟨?_, ?_, ?_, ?_, ?_, ?_⟩
  · exact (c1_amended_update_payload_characterization.1 mpSample mpSample).1.mpr rfl
  · exact (c1_amended_update_payload_characterization.1
      { mpSample with name := .value "p2" } mpSample).2.1 (by decide)
  · exact (c1_amended_update_payload_characterization.2.1 Except.ok modelSample modelSample
      ⟨.unset, .unset, .unset⟩ ⟨"m1"⟩ rfl).1
  · exact (c1_amended_update_payload_characterization.2.2.1 (fun _ => .ok []) dpSample dpSample
      ⟨.unset, .unset, .unset, .unset⟩ rfl).2.2.2.2.2.2.1
  · exact (c1_amended_update_payload_characterization.2.2.2.1 Except.ok oauthSample
      ⟨.val "Svc", .val "cid", .val "sec", .val "https://auth.example",
       .val "https://token.example", .unset, .val [], .val [], .unset, .val true,
       .unset, .unset⟩ rfl).1
  · exact (c1_amended_update_payload_characterization.2.2.2.2 Except.ok mcpSample
      ⟨.val "ep", .val "https://mcp.example", .unset, .val [], .val false, .val false,
       .val false, .val true, .unset, .unset, .unset⟩ rfl).1

end Devgraph
